import Mathlib

/-!
Verification of `uw-openhsi` against its natural-language specification.

The repository has four Python source files:

* `uw-openhsi/ids/record_frames.py` — the IDS camera reconnect monitor and
  acquisition loop (`class IDSCam`);
* `uw-openhsi/main.py` — the capture orchestrator (config patching and
  subprocess step sequencing);
* `uw-openhsi/zed/position_post.py` — pose post-processing of an SVO file
  into a CSV;
* `uw-openhsi/zed/record_svo.py` — SVO recording (not the subject of a claim).

Each Lean definition below is a shallow embedding of a concrete piece of that
code; the doc comment of every definition names the function and lines it
embeds.  Vendor-SDK effects (IDS peak data stream, device node map, pandas,
subprocess) are modelled as explicit state passing over smallish record types,
and every observable side effect needed by a claim is recorded in an explicit
event trace.
-/

namespace UwOpenhsi

namespace IDS

/-- Embeds `ids_peak.DeviceReconnectInformation` as consumed by
`record_frames.py`: its three boolean facets `IsSuccessful()`,
`IsRemoteDeviceAcquisitionRunning()` and
`IsRemoteDeviceConfigurationRestored()`. -/
structure DeviceReconnectInformation where
  isSuccessful : Bool
  isRemoteDeviceAcquisitionRunning : Bool
  isRemoteDeviceConfigurationRestored : Bool
deriving DecidableEq, Repr

/-- The camera/stream state visible to `IDSCam`'s recovery code:
`PayloadSize` from the remote node map, the transport's
`NumBuffersAnnouncedMinRequired()`, the sizes of the announced buffers
(`data_stream.AnnouncedBuffers()`, in announcement order), the sizes of the
buffers currently queued in the input pool, the stream's `IsGrabbing()` flag,
and a counter of `AcquisitionStart` command executions on the remote device. -/
structure CamState where
  payloadSize : Nat
  numBuffersAnnouncedMinRequired : Nat
  announcedBuffers : List Nat
  queuedBuffers : List Nat
  grabbing : Bool
  remoteAcquisitionStartExecutes : Nat
deriving DecidableEq, Repr

/-- The individual vendor-API calls the recovery procedure can make, as trace
actions. -/
inductive StreamAction where
  | stopAcquisition
  | startAcquisition
  | flushDiscardAll
  | revokeBuffer (size : Nat)
  | allocAndAnnounceBuffer (size : Nat)
  | queueBuffer (size : Nat)
  | execRemoteAcquisitionStart
deriving DecidableEq, Repr

/-- A trace event: the action performed together with the value of
`data_stream.IsGrabbing()` at the moment the action was performed. -/
structure Event where
  action : StreamAction
  grabbingBefore : Bool
deriving DecidableEq, Repr

/-- Actions that mutate the data stream's buffer pool (flush, revoke,
allocate/announce, queue), as opposed to pure stream start/stop or remote
commands. -/
def StreamAction.mutatesPool : StreamAction → Bool
  | .flushDiscardAll => true
  | .revokeBuffer _ => true
  | .allocAndAnnounceBuffer _ => true
  | .queueBuffer _ => true
  | _ => false

/-- Embeds `self.data_stream.StopAcquisition()` (record_frames.py line 84). -/
def stopAcquisition (s : CamState) : CamState × List Event :=
  ({ s with grabbing := false }, [⟨StreamAction.stopAcquisition, s.grabbing⟩])

/-- Embeds `self.data_stream.StartAcquisition()` (record_frames.py line 92). -/
def startAcquisition (s : CamState) : CamState × List Event :=
  ({ s with grabbing := true }, [⟨StreamAction.startAcquisition, s.grabbing⟩])

/-- Embeds `IDSCam.revoke_buffers` (record_frames.py lines 281-287):
`Flush(DataStreamFlushMode_DiscardAll)` empties the queues, then every
announced buffer is revoked (`RevokeBuffer`) in order. -/
def revoke_buffers (s : CamState) : CamState × List Event :=
  let s1 : CamState := { s with queuedBuffers := [] }
  ({ s1 with announcedBuffers := [] },
    Event.mk StreamAction.flushDiscardAll s.grabbing
      :: s1.announcedBuffers.map (fun b => Event.mk (StreamAction.revokeBuffer b) s1.grabbing))

/-- The `for buffer_count in range(buffer_count_max)` loop of
`IDSCam.alloc_buffers` (record_frames.py lines 275-279): each iteration lets
the transport layer allocate and announce one buffer of `payload_size` bytes
(`AllocAndAnnounceBuffer`) and then queues it (`QueueBuffer`). -/
def allocLoop (payload_size : Nat) : Nat → CamState → CamState × List Event
  | 0, s => (s, [])
  | Nat.succ n, s =>
      let s1 : CamState := { s with announcedBuffers := s.announcedBuffers ++ [payload_size] }
      let s2 : CamState := { s1 with queuedBuffers := s1.queuedBuffers ++ [payload_size] }
      let r := allocLoop payload_size n s2
      (r.1, Event.mk (StreamAction.allocAndAnnounceBuffer payload_size) s.grabbing
        :: Event.mk (StreamAction.queueBuffer payload_size) s1.grabbing
        :: r.2)

/-- Embeds `IDSCam.alloc_buffers` (record_frames.py lines 267-279): re-reads
`PayloadSize` and `NumBuffersAnnouncedMinRequired()` from the state, then runs
the allocate-and-queue loop. -/
def alloc_buffers (s : CamState) : CamState × List Event :=
  allocLoop s.payloadSize s.numBuffersAnnouncedMinRequired s

/-- Embeds `self.remote_nodemap.FindNode("AcquisitionStart").Execute()`
(record_frames.py line 95), appended after an existing trace. -/
def execAcquisitionStart (s : CamState) (es : List Event) : CamState × List Event :=
  ({ s with remoteAcquisitionStartExecutes := s.remoteAcquisitionStartExecutes + 1 },
    es ++ [⟨StreamAction.execRemoteAcquisitionStart, s.grabbing⟩])

/-- Embeds `IDSCam.ensure_compatible_buffers_and_restart_acquisition`
(record_frames.py lines 61-95).  `AnnouncedBuffers()[0]` on an empty pool
would raise an `IndexError`, modelled as `none`.  On a payload-size mismatch
the stream is stopped if grabbing, the buffers are revoked and reallocated,
and the stream is restarted if it had been grabbing; finally, if the
reconnect information says the remote acquisition is not running,
`AcquisitionStart` is executed on the remote node map. -/
def ensure_compatible_buffers_and_restart_acquisition
    (s : CamState) (info : DeviceReconnectInformation) : Option (CamState × List Event) :=
  match s.announcedBuffers with
  | [] => none
  | b0 :: _ =>
      let afterMismatch : CamState × List Event :=
        if s.payloadSize != b0 then
          let is_data_stream_running := s.grabbing
          let p1 := if is_data_stream_running then stopAcquisition s else (s, [])
          let p2 := revoke_buffers p1.1
          let p3 := alloc_buffers p2.1
          let p4 := if is_data_stream_running then startAcquisition p3.1 else (p3.1, [])
          (p4.1, p1.2 ++ p2.2 ++ p3.2 ++ p4.2)
        else (s, [])
      if info.isRemoteDeviceAcquisitionRunning then some afterMismatch
      else some (execAcquisitionStart afterMismatch.1 afterMismatch.2)

/-- Embeds `IDSCam.device_reconnected` (record_frames.py lines 97-121): if the
reconnect information reports success the callback only prints and returns;
otherwise it runs the recovery procedure. -/
def device_reconnected (s : CamState) (info : DeviceReconnectInformation) :
    Option (CamState × List Event) :=
  if info.isSuccessful then some (s, [])
  else ensure_compatible_buffers_and_restart_acquisition s info

/-- Net state effect of the allocate-and-queue loop: it appends
`n` buffers of `payload_size` bytes to both the announced list and the queue,
leaving every other field unchanged. -/
lemma allocLoop_fst (payload_size : Nat) :
    ∀ (n : Nat) (s : CamState),
      (allocLoop payload_size n s).1 =
        { s with announcedBuffers := s.announcedBuffers ++ List.replicate n payload_size,
                 queuedBuffers := s.queuedBuffers ++ List.replicate n payload_size }
  | 0, s => by simp [allocLoop]
  | Nat.succ n, s => by
      simp only [allocLoop, allocLoop_fst payload_size n]
      simp [List.replicate_succ, List.append_assoc]

/-- Every event emitted by the allocate-and-queue loop records the grabbing
flag the loop started with (the loop itself never changes it). -/
lemma allocLoop_events (payload_size : Nat) :
    ∀ (n : Nat) (s : CamState), ∀ e ∈ (allocLoop payload_size n s).2,
      e.grabbingBefore = s.grabbing
  | 0, _, e, he => by simp [allocLoop] at he
  | Nat.succ n, s, e, he => by
      simp only [allocLoop, List.mem_cons] at he
      rcases he with h | h | h
      · simp [h]
      · simp [h]
      · have h2 := allocLoop_events payload_size n _ e h
        simpa using h2

/-- Closed form of the events emitted by the allocate-and-queue loop: `n`
announce/queue event pairs, all recording the grabbing flag the loop started
with. -/
lemma allocLoop_snd (payload_size : Nat) :
    ∀ (n : Nat) (s : CamState),
      (allocLoop payload_size n s).2 =
        List.flatten (List.replicate n
          [Event.mk (StreamAction.allocAndAnnounceBuffer payload_size) s.grabbing,
           Event.mk (StreamAction.queueBuffer payload_size) s.grabbing])
  | 0, s => by simp [allocLoop]
  | Nat.succ n, s => by
      simp only [allocLoop, allocLoop_snd payload_size n]
      simp [List.replicate_succ]

/-- Closed form of the recovery procedure in the payload-size-mismatch case:
the pool is replaced by `NumBuffersAnnouncedMinRequired` buffers of the
current `PayloadSize`; the grabbing flag is restored; the remote
`AcquisitionStart` is executed exactly when the reconnect information says
remote acquisition is not running; and every pool-mutating event happens with
the stream stopped. -/
lemma ensure_eq_of_mismatch (s : CamState) (info : DeviceReconnectInformation)
    (b0 : Nat) (rest : List Nat)
    (hpool : s.announcedBuffers = b0 :: rest) (hmm : s.payloadSize ≠ b0) :
    ensure_compatible_buffers_and_restart_acquisition s info = some
      ({ s with
          announcedBuffers :=
            List.replicate s.numBuffersAnnouncedMinRequired s.payloadSize,
          queuedBuffers :=
            List.replicate s.numBuffersAnnouncedMinRequired s.payloadSize,
          remoteAcquisitionStartExecutes := s.remoteAcquisitionStartExecutes +
            (if info.isRemoteDeviceAcquisitionRunning then 0 else 1) },
        (if s.grabbing then [Event.mk StreamAction.stopAcquisition true] else []) ++
          (Event.mk StreamAction.flushDiscardAll false ::
            (b0 :: rest).map (fun b => Event.mk (StreamAction.revokeBuffer b) false)) ++
          List.flatten (List.replicate s.numBuffersAnnouncedMinRequired
            [Event.mk (StreamAction.allocAndAnnounceBuffer s.payloadSize) false,
             Event.mk (StreamAction.queueBuffer s.payloadSize) false]) ++
          (if s.grabbing then [Event.mk StreamAction.startAcquisition false] else []) ++
          (if info.isRemoteDeviceAcquisitionRunning then []
           else [Event.mk StreamAction.execRemoteAcquisitionStart s.grabbing])) := by
  have hb : (s.payloadSize != b0) = true := by simpa using hmm
  by_cases hg : s.grabbing <;> by_cases hr : info.isRemoteDeviceAcquisitionRunning <;>
    simp [ensure_compatible_buffers_and_restart_acquisition, hpool, hb, hg, hr,
      stopAcquisition, startAcquisition, revoke_buffers, alloc_buffers, allocLoop_fst,
      allocLoop_snd, execAcquisitionStart, List.append_assoc]

/-- Closed form of the recovery procedure when the payload size matches the
first announced buffer: the state is untouched except for the conditional
remote `AcquisitionStart`, and no buffer-pool event is emitted. -/
lemma ensure_eq_of_match (s : CamState) (info : DeviceReconnectInformation)
    (b0 : Nat) (rest : List Nat)
    (hpool : s.announcedBuffers = b0 :: rest) (hmm : s.payloadSize = b0) :
    ensure_compatible_buffers_and_restart_acquisition s info =
      (if info.isRemoteDeviceAcquisitionRunning then some (s, [])
       else some
        ({ s with remoteAcquisitionStartExecutes :=
            s.remoteAcquisitionStartExecutes + 1 },
          [Event.mk StreamAction.execRemoteAcquisitionStart s.grabbing])) := by
  have hb : (s.payloadSize != b0) = false := by simp [hmm]
  by_cases hr : info.isRemoteDeviceAcquisitionRunning <;>
    simp [ensure_compatible_buffers_and_restart_acquisition, hpool, hb, hr,
      execAcquisitionStart]

end IDS

namespace IDS

/-- C1: for payload sizes P1 ≠ P2, a reconnect callback firing with
`IsSuccessful() = false` while `PayloadSize` is P2 and the first announced
buffer has size P1 leaves, after recovery, a buffer pool whose buffers all
have size P2 and whose size is the transport's
`NumBuffersAnnouncedMinRequired()`. -/
theorem recovery_reallocates_pool_to_payload_size
    (P1 P2 : Nat) (rest : List Nat) (s : CamState)
    (info : DeviceReconnectInformation) (s' : CamState) (es : List Event)
    (hne : P1 ≠ P2)
    (hsucc : info.isSuccessful = false)
    (hpay : s.payloadSize = P2)
    (hpool : s.announcedBuffers = P1 :: rest)
    (hrun : device_reconnected s info = some (s', es)) :
    (∀ b ∈ s'.announcedBuffers, b = P2) ∧
    s'.announcedBuffers.length = s.numBuffersAnnouncedMinRequired := by
  have hmm : s.payloadSize ≠ P1 := by rw [hpay]; exact Ne.symm hne
  rw [device_reconnected, if_neg (by simp [hsucc]),
    ensure_eq_of_mismatch s info P1 rest hpool hmm] at hrun
  injection hrun with h
  injection h with h1 h2
  subst h1
  refine ⟨?_, by simp⟩
  intro b hb
  simp only [hpay] at hb
  exact List.eq_of_mem_replicate (by simpa using hb)

def camA : CamState := ⟨8, 3, [4], [4], true, 0⟩

def infoA : DeviceReconnectInformation := ⟨false, false, false⟩

def camA' : CamState := ⟨8, 3, [8, 8, 8], [8, 8, 8], true, 1⟩

def esA : List Event :=
  [⟨.stopAcquisition, true⟩, ⟨.flushDiscardAll, false⟩, ⟨.revokeBuffer 4, false⟩,
   ⟨.allocAndAnnounceBuffer 8, false⟩, ⟨.queueBuffer 8, false⟩,
   ⟨.allocAndAnnounceBuffer 8, false⟩, ⟨.queueBuffer 8, false⟩,
   ⟨.allocAndAnnounceBuffer 8, false⟩, ⟨.queueBuffer 8, false⟩,
   ⟨.startAcquisition, false⟩, ⟨.execRemoteAcquisitionStart, true⟩]

/-- Witness for C1 at the concrete reconnect scenario `camA` (payload size 8,
one stale buffer of size 4, minimum-required count 3). -/
theorem recovery_reallocates_pool_to_payload_size_witness :
    (∀ b ∈ camA'.announcedBuffers, b = 8) ∧
    camA'.announcedBuffers.length = camA.numBuffersAnnouncedMinRequired :=
  recovery_reallocates_pool_to_payload_size 4 8 [] camA infoA camA' esA
    (by decide) (by decide) (by decide) (by decide) (by decide)

/-- C2: during the reconnect recovery procedure the data stream is never
grabbing while the buffer pool is mutated: every flush, revoke, allocation or
queue event in the callback's trace was performed with `IsGrabbing() = false`. -/
theorem no_pool_mutation_while_grabbing
    (s : CamState) (info : DeviceReconnectInformation) (s' : CamState) (es : List Event)
    (hrun : device_reconnected s info = some (s', es)) :
    ∀ e ∈ es, e.action.mutatesPool = true → e.grabbingBefore = false := by
  intro e he hm
  by_cases hsucc : info.isSuccessful
  · rw [device_reconnected, if_pos hsucc] at hrun
    injection hrun with h
    injection h with h1 h2
    rw [← h2] at he
    simp at he
  · rw [device_reconnected, if_neg hsucc] at hrun
    rcases hpool : s.announcedBuffers with - | ⟨b0, rest⟩
    · simp [ensure_compatible_buffers_and_restart_acquisition, hpool] at hrun
    · by_cases hmm : s.payloadSize = b0
      · rw [ensure_eq_of_match s info b0 rest hpool hmm] at hrun
        by_cases hr : info.isRemoteDeviceAcquisitionRunning
        · rw [if_pos hr] at hrun
          injection hrun with h
          injection h with h1 h2
          rw [← h2] at he
          simp at he
        · rw [if_neg hr] at hrun
          injection hrun with h
          injection h with h1 h2
          rw [← h2] at he
          simp only [List.mem_singleton] at he
          subst he
          simp [StreamAction.mutatesPool] at hm
      · rw [ensure_eq_of_mismatch s info b0 rest hpool hmm] at hrun
        injection hrun with h
        injection h with h1 h2
        rw [← h2] at he
        rcases List.mem_append.1 he with h3 | h3
        case _ =>
          rcases List.mem_append.1 h3 with h4 | h4
          case _ =>
            rcases List.mem_append.1 h4 with h5 | h5
            case _ =>
              rcases List.mem_append.1 h5 with h6 | h6
              case _ =>
                by_cases hg : s.grabbing
                · rw [if_pos hg] at h6
                  simp only [List.mem_singleton] at h6
                  subst h6
                  simp [StreamAction.mutatesPool] at hm
                · rw [if_neg hg] at h6
                  simp at h6
              case _ =>
                rcases List.mem_cons.1 h6 with h7 | h7
                · subst h7; rfl
                · obtain ⟨b, -, h8⟩ := List.mem_map.1 h7
                  rw [← h8]
            case _ =>
              obtain ⟨l, hl, hel⟩ := List.mem_flatten.1 h5
              obtain ⟨-, rfl⟩ := List.mem_replicate.1 hl
              rcases List.mem_cons.1 hel with h7 | h7
              · subst h7; rfl
              · simp only [List.mem_singleton] at h7
                subst h7; rfl
          case _ =>
            by_cases hg : s.grabbing
            · rw [if_pos hg] at h4
              simp only [List.mem_singleton] at h4
              subst h4
              simp [StreamAction.mutatesPool] at hm
            · rw [if_neg hg] at h4
              simp at h4
        case _ =>
          by_cases hr : info.isRemoteDeviceAcquisitionRunning
          · rw [if_pos hr] at h3
            simp at h3
          · rw [if_neg hr] at h3
            simp only [List.mem_singleton] at h3
            subst h3
            simp [StreamAction.mutatesPool] at hm

def camB : CamState := ⟨16, 2, [5, 5], [5, 5], false, 0⟩

def infoB : DeviceReconnectInformation := ⟨false, true, false⟩

def camB' : CamState := ⟨16, 2, [16, 16], [16, 16], false, 0⟩

def esB : List Event :=
  [⟨.flushDiscardAll, false⟩, ⟨.revokeBuffer 5, false⟩, ⟨.revokeBuffer 5, false⟩,
   ⟨.allocAndAnnounceBuffer 16, false⟩, ⟨.queueBuffer 16, false⟩,
   ⟨.allocAndAnnounceBuffer 16, false⟩, ⟨.queueBuffer 16, false⟩]

/-- Witness for C2 at the concrete reconnect scenario `camB`, instantiated at
the flush event of its trace. -/
theorem no_pool_mutation_while_grabbing_witness :
    (Event.mk StreamAction.flushDiscardAll false).grabbingBefore = false :=
  no_pool_mutation_while_grabbing camB infoB camB' esB (by decide)
    (Event.mk StreamAction.flushDiscardAll false) (by decide) (by decide)

/-- C3: the reconnect recovery procedure preserves the stream's grabbing
state: after the callback the stream is grabbing exactly when it was grabbing
before. -/
theorem recovery_preserves_grabbing_state
    (s : CamState) (info : DeviceReconnectInformation) (s' : CamState) (es : List Event)
    (hrun : device_reconnected s info = some (s', es)) :
    s'.grabbing = s.grabbing := by
  by_cases hsucc : info.isSuccessful
  · rw [device_reconnected, if_pos hsucc] at hrun
    injection hrun with h
    injection h with h1 h2
    rw [← h1]
  · rw [device_reconnected, if_neg hsucc] at hrun
    rcases hpool : s.announcedBuffers with - | ⟨b0, rest⟩
    · simp [ensure_compatible_buffers_and_restart_acquisition, hpool] at hrun
    · by_cases hmm : s.payloadSize = b0
      · rw [ensure_eq_of_match s info b0 rest hpool hmm] at hrun
        by_cases hr : info.isRemoteDeviceAcquisitionRunning
        · rw [if_pos hr] at hrun
          injection hrun with h
          injection h with h1 h2
          rw [← h1]
        · rw [if_neg hr] at hrun
          injection hrun with h
          injection h with h1 h2
          rw [← h1]
      · rw [ensure_eq_of_mismatch s info b0 rest hpool hmm] at hrun
        injection hrun with h
        injection h with h1 h2
        rw [← h1]

def camC : CamState := ⟨10, 1, [10], [10], true, 2⟩

def infoC : DeviceReconnectInformation := ⟨false, false, true⟩

def camC' : CamState := ⟨10, 1, [10], [10], true, 3⟩

def esC : List Event := [⟨.execRemoteAcquisitionStart, true⟩]

/-- Witness for C3 at the concrete reconnect scenario `camC`. -/
theorem recovery_preserves_grabbing_state_witness : camC'.grabbing = camC.grabbing :=
  recovery_preserves_grabbing_state camC infoC camC' esC (by decide)

/-- C4: a reconnect event whose information reports `IsSuccessful() = true`
performs no recovery action: the callback returns the state unchanged and an
empty event trace. -/
theorem successful_reconnect_is_noop
    (s : CamState) (info : DeviceReconnectInformation)
    (hsucc : info.isSuccessful = true) :
    device_reconnected s info = some (s, []) := by
  simp [device_reconnected, hsucc]

def camD : CamState := ⟨7, 2, [7, 7], [7, 7], false, 0⟩

def infoD : DeviceReconnectInformation := ⟨true, false, false⟩

/-- Witness for C4 at a concrete camera state and a successful reconnect. -/
theorem successful_reconnect_is_noop_witness :
    device_reconnected camD infoD = some (camD, []) :=
  successful_reconnect_is_noop camD infoD (by decide)

/-- One iteration's outcome of `WaitForFinishedBuffer` inside the `try` block
of `IDSCam.run_acquisition_loop` (record_frames.py lines 189-200): either a
filled buffer with its `FrameID`, an exception that is not a user interrupt
(the `except Exception` branch), or a `KeyboardInterrupt`. -/
inductive WaitOutcome where
  | finishedBuffer (frameId : Nat)
  | waitException
  | keyboardInterrupt
deriving DecidableEq, Repr

/-- Result of the while loop of `IDSCam.run_acquisition_loop`: the `FrameID`s
that were received and requeued, whether the loop ended through the
`KeyboardInterrupt` branch (`break`), and the wait outcomes the loop never
reached. -/
structure LoopResult where
  frames : List Nat
  interrupted : Bool
  remaining : List WaitOutcome
deriving DecidableEq, Repr

/-- Embeds the `while self.acquisition_running:` loop of
`IDSCam.run_acquisition_loop` (record_frames.py lines 188-200), driven by a
finite script of wait outcomes. `acquisition_running` is set to `True` before
the loop and never reset in the source, so the loop only ends through the
`KeyboardInterrupt` branch (or when the finite script is exhausted, the
model's cut-off for the otherwise unbounded wait).  A finished buffer is
recorded and requeued; `except Exception` prints and falls through to the
next iteration; `except KeyboardInterrupt` breaks. -/
def run_acquisition_loop_while : List WaitOutcome → LoopResult
  | [] => ⟨[], false, []⟩
  | WaitOutcome.finishedBuffer fid :: rest =>
      let r := run_acquisition_loop_while rest
      ⟨fid :: r.frames, r.interrupted, r.remaining⟩
  | WaitOutcome.waitException :: rest => run_acquisition_loop_while rest
  | WaitOutcome.keyboardInterrupt :: rest => ⟨[], true, rest⟩

/-- The `FrameID`s of the finished buffers in a script. -/
def finishedFrames (script : List WaitOutcome) : List Nat :=
  script.filterMap (fun o =>
    match o with
    | WaitOutcome.finishedBuffer fid => some fid
    | _ => none)

/-- C5: in the acquisition loop, every buffer-wait exception that is not a
user interrupt is absorbed and the loop continues (a script without a
`KeyboardInterrupt` is consumed completely and never terminates the loop),
while the first `KeyboardInterrupt` terminates the loop exactly there,
leaving the rest of the script unconsumed; the frames processed are exactly
the finished buffers seen before the interrupt. -/
theorem wait_exceptions_absorbed_interrupt_terminates
    (pre post : List WaitOutcome)
    (hpre : WaitOutcome.keyboardInterrupt ∉ pre) :
    (run_acquisition_loop_while pre).interrupted = false ∧
    (run_acquisition_loop_while pre).remaining = [] ∧
    (run_acquisition_loop_while pre).frames = finishedFrames pre ∧
    (run_acquisition_loop_while (pre ++ WaitOutcome.keyboardInterrupt :: post)).interrupted
      = true ∧
    (run_acquisition_loop_while (pre ++ WaitOutcome.keyboardInterrupt :: post)).remaining
      = post ∧
    (run_acquisition_loop_while (pre ++ WaitOutcome.keyboardInterrupt :: post)).frames
      = finishedFrames pre := by
  induction pre with
  | nil => simp [run_acquisition_loop_while, finishedFrames]
  | cons o rest ih =>
      have hnot : WaitOutcome.keyboardInterrupt ∉ rest := by
        intro h
        exact hpre (List.mem_cons_of_mem _ h)
      have ho : o ≠ WaitOutcome.keyboardInterrupt := by
        intro h
        exact hpre (h ▸ List.mem_cons_self _ _)
      obtain ⟨ih1, ih2, ih3, ih4, ih5, ih6⟩ := ih hnot
      cases o with
      | finishedBuffer fid =>
          refine ⟨?_, ?_, ?_, ?_, ?_, ?_⟩ <;>
            simp [run_acquisition_loop_while, finishedFrames, ih1, ih2, ih3, ih4, ih5, ih6]
      | waitException =>
          refine ⟨?_, ?_, ?_, ?_, ?_, ?_⟩ <;>
            simp [run_acquisition_loop_while, finishedFrames, ih1, ih2, ih3, ih4, ih5, ih6]
      | keyboardInterrupt => exact absurd rfl ho

/-- Witness for C5: a concrete script with a finished buffer and a wait
exception before the interrupt, and one unreached outcome after it. -/
theorem wait_exceptions_absorbed_interrupt_terminates_witness :
    (run_acquisition_loop_while
      [WaitOutcome.finishedBuffer 7, WaitOutcome.waitException]).interrupted = false ∧
    (run_acquisition_loop_while
      [WaitOutcome.finishedBuffer 7, WaitOutcome.waitException]).remaining = [] ∧
    (run_acquisition_loop_while
      [WaitOutcome.finishedBuffer 7, WaitOutcome.waitException]).frames
      = finishedFrames [WaitOutcome.finishedBuffer 7, WaitOutcome.waitException] ∧
    (run_acquisition_loop_while
      ([WaitOutcome.finishedBuffer 7, WaitOutcome.waitException] ++
        WaitOutcome.keyboardInterrupt :: [WaitOutcome.finishedBuffer 9])).interrupted
      = true ∧
    (run_acquisition_loop_while
      ([WaitOutcome.finishedBuffer 7, WaitOutcome.waitException] ++
        WaitOutcome.keyboardInterrupt :: [WaitOutcome.finishedBuffer 9])).remaining
      = [WaitOutcome.finishedBuffer 9] ∧
    (run_acquisition_loop_while
      ([WaitOutcome.finishedBuffer 7, WaitOutcome.waitException] ++
        WaitOutcome.keyboardInterrupt :: [WaitOutcome.finishedBuffer 9])).frames
      = finishedFrames [WaitOutcome.finishedBuffer 7, WaitOutcome.waitException] :=
  wait_exceptions_absorbed_interrupt_terminates
    [WaitOutcome.finishedBuffer 7, WaitOutcome.waitException]
    [WaitOutcome.finishedBuffer 9] (by decide)

/-- How the `try` body of `IDSCam.run` (record_frames.py lines 296-326:
device-manager update, open, enable reconnect, load defaults, buffer
allocation, acquisition loop, buffer revocation) can end: normal completion
(this includes a `KeyboardInterrupt` caught inside the acquisition loop),
an `ids_peak.AbortedException`, some other `Exception`, or a user interrupt
escaping the body (`except Exception` does not catch `KeyboardInterrupt`,
which derives from `BaseException`). -/
inductive RunBodyOutcome where
  | completed
  | abortedException
  | otherException
  | keyboardInterrupt
deriving DecidableEq, Repr

/-- Which of the four device-manager callbacks are currently registered
(found, lost, reconnected, disconnected). -/
structure CallbackRegistry where
  deviceFoundRegistered : Bool
  deviceLostRegistered : Bool
  deviceReconnectedRegistered : Bool
  deviceDisconnectedRegistered : Bool
deriving DecidableEq, Repr

/-- Embeds `IDSCam.register_callbacks` (record_frames.py lines 131-158):
registers all four device-manager callbacks.  It is called from
`IDSCam.__init__`. -/
def register_callbacks : CallbackRegistry :=
  { deviceFoundRegistered := true, deviceLostRegistered := true,
    deviceReconnectedRegistered := true, deviceDisconnectedRegistered := true }

/-- Embeds `IDSCam.unregister_callbacks` (record_frames.py lines 160-171):
unregisters each of the four callbacks in turn. -/
def unregister_callbacks (r : CallbackRegistry) : CallbackRegistry :=
  let r1 := { r with deviceFoundRegistered := false }
  let r2 := { r1 with deviceLostRegistered := false }
  let r3 := { r2 with deviceReconnectedRegistered := false }
  { r3 with deviceDisconnectedRegistered := false }

/-- Observable result of `IDSCam.run`: the callback-registration state after
the routine, whether `ids_peak.Library.Close()` was called, the Python return
value of the method, and whether an exception propagated out of the method
(only possible for a `KeyboardInterrupt`, which `except Exception` does not
catch but `finally` still runs for). -/
structure RunResult where
  registry : CallbackRegistry
  libraryClosed : Bool
  returnValue : Option Int
  uncaught : Bool
deriving DecidableEq, Repr

/-- Embeds `IDSCam.run` (record_frames.py lines 295-336):
`try: ... except ids_peak.AbortedException: print("Aborted")
except Exception as e: print(...); return -2
finally: self.unregister_callbacks(); ids_peak.Library.Close()`.
The callbacks were registered by `__init__`; the `finally` block runs on
every path, including the return and the propagating user interrupt. -/
def run (body : RunBodyOutcome) : RunResult :=
  let registryAfterFinally := unregister_callbacks register_callbacks
  match body with
  | RunBodyOutcome.completed =>
      ⟨registryAfterFinally, true, none, false⟩
  | RunBodyOutcome.abortedException =>
      ⟨registryAfterFinally, true, none, false⟩
  | RunBodyOutcome.otherException =>
      ⟨registryAfterFinally, true, some (-2), false⟩
  | RunBodyOutcome.keyboardInterrupt =>
      ⟨registryAfterFinally, true, none, true⟩

/-- How the process ends after the `if __name__ == '__main__':` block
(record_frames.py lines 339-341): `example.run()` is a bare expression
statement, so the script either falls off the end (normal interpreter exit)
or dies from the propagating exception. -/
inductive ProcessEnd where
  | normalExit
  | uncaughtException
deriving DecidableEq, Repr

/-- Embeds the `__main__` block of record_frames.py (lines 339-341):
`example = IDSCam()` then `example.run()`; the return value of `run` is
discarded and `sys.exit` is never called. -/
def script_main (body : RunBodyOutcome) : ProcessEnd :=
  let r := run body
  if r.uncaught then ProcessEnd.uncaughtException else ProcessEnd.normalExit

/-- The process exit status for each way the script can end: 0 for a normal
CPython exit, and the interpreter's nonzero error status (modelled as 1) when
an exception escapes the script.  No path passes `-2` to the interpreter. -/
def ProcessEnd.exitCode : ProcessEnd → Int
  | ProcessEnd.normalExit => 0
  | ProcessEnd.uncaughtException => 1

/-- C6: on every execution path of `IDSCam.run` — normal completion, the
aborted-exception path, the generic-exception path, and a propagating user
interrupt — all four device-manager callbacks end up unregistered and the
library is closed before the routine returns. -/
theorem run_always_unregisters_and_closes (body : RunBodyOutcome) :
    (run body).registry.deviceFoundRegistered = false ∧
    (run body).registry.deviceLostRegistered = false ∧
    (run body).registry.deviceReconnectedRegistered = false ∧
    (run body).registry.deviceDisconnectedRegistered = false ∧
    (run body).libraryClosed = true := by
  cases body <;> simp [run, unregister_callbacks, register_callbacks]

/-- Counterexample to C7: when the hyperspectral run raises a generic
exception, `IDSCam.run` merely returns the value `-2`; the `__main__` block
discards that value, so the process ends normally with exit status 0, not
with exit code `-2`. -/
theorem run_exit_code_counterexample :
    (run RunBodyOutcome.otherException).returnValue = some (-2) ∧
    script_main RunBodyOutcome.otherException = ProcessEnd.normalExit ∧
    (script_main RunBodyOutcome.otherException).exitCode = 0 ∧
    (script_main RunBodyOutcome.otherException).exitCode ≠ -2 := by decide

/-- C7 as amended: on an unhandled exception (other than the SDK's aborted
exception) during the hyperspectral run, the `run` method returns `-2`,
but the top-level script discards that return value, so the process never
exits with code `-2`; on every other outcome `run` returns no value. -/
theorem run_returns_neg_two_but_process_exits_zero (body : RunBodyOutcome) :
    ((run body).returnValue = some (-2) ↔ body = RunBodyOutcome.otherException) ∧
    (script_main body).exitCode ≠ -2 := by
  cases body <;> simp [run, script_main, ProcessEnd.exitCode]

end IDS

namespace Main

/-- Result of a completed `subprocess.run(..., capture_output=True, text=True)`
call in main.py: the child's exit code and captured streams. -/
structure SubprocessResult where
  returncode : Int
  stdout : String
  stderr : String
deriving DecidableEq, Repr

/-- The subprocess command lines built in main.py (lines 139-148):
`command_record`, `command_export`, `command_pose_post`, `command_mesh_post`.
Each value stands for the argv list built once before the step blocks, so two
invocations of the same value use identical arguments. -/
inductive StepCmd where
  | command_record
  | command_export
  | command_pose_post
  | command_mesh_post
deriving DecidableEq, Repr

/-- The static `process_dict` step table of main.py (lines 151-156). -/
structure ProcessDict where
  record : Bool
  record_svo : Bool
  record_hsi : Bool
  pose_post : Bool
  export_ : Bool
  mesh_post : Bool
deriving DecidableEq, Repr

/-- Observable events of the orchestrator script: a subprocess invocation,
a success log (the success print plus the child's stdout), a failure log
(the failure print plus the child's captured stderr), or the error print of
an `except` handler. -/
inductive ScriptEvent where
  | invoked (c : StepCmd)
  | loggedSuccess (out : String)
  | loggedFailure (err : String)
  | loggedError
deriving DecidableEq, Repr

/-- Embeds one `try: result = subprocess.run(cmd, capture_output=True,
text=True); if result.returncode == 0: print(success); print(result.stdout)
else: print(failure); print(result.stderr) except subprocess.CalledProcessError
as e: print(error)` block of main.py (the `export` block lines 180-194, the
`pose_post` block lines 196-211, and both `mesh_post` blocks lines 217-231 and
234-248 all have this shape).  `subprocess.run` without `check=True` never
raises `CalledProcessError` for a nonzero exit code, so the handler is
unreachable and a failing child only produces the failure log. -/
def stepBlock (c : StepCmd) (r : SubprocessResult) : List ScriptEvent :=
  ScriptEvent.invoked c ::
    (if r.returncode == 0 then [ScriptEvent.loggedSuccess r.stdout]
     else [ScriptEvent.loggedFailure r.stderr])

/-- Embeds `record_svo` of main.py (lines 23-42): `subprocess.run` on
`command_record` inside a `try` that catches `KeyboardInterrupt`; if the run
was interrupted, `result` is unbound and the later `result.returncode` raises
`NameError`, which the outer `except (CalledProcessError, NameError)` handler
logs; otherwise a nonzero exit code reaches the failure branch, just as in
`stepBlock`. -/
def record_svo (interrupted : Bool) (r : SubprocessResult) : List ScriptEvent :=
  ScriptEvent.invoked StepCmd.command_record ::
    (if interrupted then [ScriptEvent.loggedError]
     else if r.returncode == 0 then [ScriptEvent.loggedSuccess r.stdout]
     else [ScriptEvent.loggedFailure r.stderr])

/-- Embeds the step-sequencing of the `__main__` block of main.py (lines
160-248): the record section spawns the `record_svo` child when both `record`
and `record_svo` are enabled (the in-process `record_hsi` call is not a
subprocess step), then the `export`, `pose_post` and two identical
`mesh_post` blocks each run when their table entry is enabled.  `env c k`
gives the result of the `k`-th subprocess invocation of command `c`. -/
def main_steps (d : ProcessDict) (interrupted : Bool)
    (env : StepCmd → Nat → SubprocessResult) : List ScriptEvent :=
  (if d.record && d.record_svo then
    record_svo interrupted (env StepCmd.command_record 0) else []) ++
  (if d.export_ then stepBlock StepCmd.command_export (env StepCmd.command_export 0) else []) ++
  (if d.pose_post then
    stepBlock StepCmd.command_pose_post (env StepCmd.command_pose_post 0) else []) ++
  (if d.mesh_post then
    stepBlock StepCmd.command_mesh_post (env StepCmd.command_mesh_post 0) else []) ++
  (if d.mesh_post then
    stepBlock StepCmd.command_mesh_post (env StepCmd.command_mesh_post 1) else [])

/-- The subprocess invocations of an orchestrator run, in order. -/
def invokedCmds (events : List ScriptEvent) : List StepCmd :=
  events.filterMap (fun e =>
    match e with
    | ScriptEvent.invoked c => some c
    | _ => none)

/-- The steps the static table enables, in program order; this depends only on
the table, never on any child's exit code. -/
def enabled_cmds (d : ProcessDict) : List StepCmd :=
  (if d.record && d.record_svo then [StepCmd.command_record] else []) ++
  (if d.export_ then [StepCmd.command_export] else []) ++
  (if d.pose_post then [StepCmd.command_pose_post] else []) ++
  (if d.mesh_post then [StepCmd.command_mesh_post] else []) ++
  (if d.mesh_post then [StepCmd.command_mesh_post] else [])

lemma invokedCmds_nil : invokedCmds [] = [] := rfl

lemma invokedCmds_append (a b : List ScriptEvent) :
    invokedCmds (a ++ b) = invokedCmds a ++ invokedCmds b := by
  simp [invokedCmds]

lemma invokedCmds_stepBlock (c : StepCmd) (r : SubprocessResult) :
    invokedCmds (stepBlock c r) = [c] := by
  by_cases h : r.returncode == 0 <;> simp [invokedCmds, stepBlock, h]

lemma invokedCmds_record_svo (i : Bool) (r : SubprocessResult) :
    invokedCmds (record_svo i r) = [StepCmd.command_record] := by
  cases i <;> by_cases h : r.returncode == 0 <;> simp [invokedCmds, record_svo, h]

/-- The orchestrator invokes exactly the table-enabled steps, whatever the
children's exit codes are. -/
lemma invoked_main_steps (d : ProcessDict) (i : Bool)
    (env : StepCmd → Nat → SubprocessResult) :
    invokedCmds (main_steps d i env) = enabled_cmds d := by
  obtain ⟨br, brs, brh, bp, be, bm⟩ := d
  simp only [main_steps, enabled_cmds]
  cases br <;> cases brs <;> cases be <;> cases bp <;> cases bm <;>
    simp [invokedCmds_append, invokedCmds_stepBlock, invokedCmds_record_svo, invokedCmds_nil]

/-- C8: a subprocess step whose child exits with a nonzero code does not make
an exception propagate out of the orchestrator: the orchestrator still
invokes exactly the configured steps in order (independently of every exit
code), and a failing step logs the child's captured stderr. -/
theorem failed_step_logged_and_steps_continue (d : ProcessDict) (i : Bool)
    (env : StepCmd → Nat → SubprocessResult) :
    invokedCmds (main_steps d i env) = enabled_cmds d ∧
    (∀ c r, r.returncode ≠ 0 →
      stepBlock c r = [ScriptEvent.invoked c, ScriptEvent.loggedFailure r.stderr]) ∧
    (∀ r, r.returncode ≠ 0 →
      record_svo false r =
        [ScriptEvent.invoked StepCmd.command_record,
         ScriptEvent.loggedFailure r.stderr]) := by
  refine ⟨invoked_main_steps d i env, ?_, ?_⟩
  · intro c r hr
    simp [stepBlock, hr]
  · intro r hr
    simp [record_svo, hr]

def dictW : ProcessDict :=
  { record := true, record_svo := true, record_hsi := true,
    pose_post := true, export_ := true, mesh_post := true }

def envW : StepCmd → Nat → SubprocessResult := fun _ _ => ⟨1, "", "boom"⟩

/-- Witness for C8: with every step enabled and every child failing with exit
code 1, all five subprocess invocations still happen in order and the failure
is logged with the captured stderr. -/
theorem failed_step_logged_and_steps_continue_witness :
    invokedCmds (main_steps dictW false envW) = enabled_cmds dictW ∧
    stepBlock StepCmd.command_export (envW StepCmd.command_export 0) =
      [ScriptEvent.invoked StepCmd.command_export, ScriptEvent.loggedFailure "boom"] :=
  ⟨(failed_step_logged_and_steps_continue dictW false envW).1,
   (failed_step_logged_and_steps_continue dictW false envW).2.1
     StepCmd.command_export (envW StepCmd.command_export 0) (by decide)⟩

/-- C10: when the `mesh_post` entry of the step table is enabled, the mesh
subprocess command is invoked exactly twice (the block is duplicated in
main.py, both times with the same `command_mesh_post` argv). -/
theorem mesh_step_invoked_twice (d : ProcessDict) (i : Bool)
    (env : StepCmd → Nat → SubprocessResult)
    (h : d.mesh_post = true) :
    (invokedCmds (main_steps d i env)).count StepCmd.command_mesh_post = 2 := by
  rw [invoked_main_steps]
  obtain ⟨br, brs, brh, bp, be, bm⟩ := d
  simp only at h
  subst h
  cases br <;> cases brs <;> cases brh <;> cases be <;> cases bp <;> decide

/-- Witness for C10: with the full table enabled the mesh command is counted
twice among the invocations. -/
theorem mesh_step_invoked_twice_witness :
    (invokedCmds (main_steps dictW false envW)).count StepCmd.command_mesh_post = 2 :=
  mesh_step_invoked_twice dictW false envW (by decide)

end Main

namespace PositionPost

/-- The pose data delivered by the ZED SDK for one successfully grabbed
frame of the SVO file, as read by position_post.py lines 116-132: the pose
timestamp in milliseconds and the translation/orientation components
(`sl.Translation` and `sl.Orientation`); the numeric components are modelled
as exact rationals. -/
structure Pose where
  timestampMs : Nat
  tx : ℚ
  ty : ℚ
  tz : ℚ
  qx : ℚ
  qy : ℚ
  qz : ℚ
  qw : ℚ
deriving DecidableEq, Repr

/-- The outcome of one `zed.grab(runtime_parameters)` call: `SUCCESS` with
the pose of that frame, or any other error code. -/
inductive GrabOutcome where
  | success (p : Pose)
  | failure
deriving DecidableEq, Repr

/-- Python's `round(x, 3)` modelled on exact rationals: round to the nearest
multiple of 1/1000. -/
def round3 (q : ℚ) : ℚ := (round (q * 1000) : ℤ) / 1000

/-- One row appended to the DataFrame (position_post.py lines 136-147):
the unrounded millisecond timestamp and the translation/quaternion values
rounded to 3 decimals. -/
structure PoseRow where
  timestamp : Nat
  tx : ℚ
  ty : ℚ
  tz : ℚ
  qx : ℚ
  qy : ℚ
  qz : ℚ
  qw : ℚ
deriving DecidableEq, Repr

/-- Builds the DataFrame row for one grabbed pose, with `round(..., 3)`
applied to the translation and quaternion components exactly as in
position_post.py lines 121-132 and 136-145. -/
def mkRow (p : Pose) : PoseRow :=
  ⟨p.timestampMs, round3 p.tx, round3 p.ty, round3 p.tz,
   round3 p.qx, round3 p.qy, round3 p.qz, round3 p.qw⟩

/-- Embeds the `i = 0; while i < nb_frames:` loop of position_post.py lines
100-176 over a finite script of grab outcomes: a successful grab appends one
row and increments `i`; a failed grab leaves `i` unchanged and retries (in
the source this loops forever if grabs keep failing; exhausting the finite
script is the model's cut-off). -/
def track_loop : List GrabOutcome → Nat → List PoseRow
  | _, 0 => []
  | [], _ + 1 => []
  | GrabOutcome.success p :: rest, n + 1 => mkRow p :: track_loop rest n
  | GrabOutcome.failure :: rest, n + 1 => track_loop rest (n + 1)

/-- A cell of the written CSV: pandas writes the integer index/timestamp
cells and the rounded rational value cells. -/
inductive CsvValue where
  | nat (n : Nat)
  | rat (q : ℚ)
deriving DecidableEq, Repr

/-- The DataFrame's named columns (position_post.py line 108). -/
def df_columns : List String := ["Timestamp", "Tx", "Ty", "Tz", "Qx", "Qy", "Qz", "Qw"]

/-- The data cells of one DataFrame row, in column order. -/
def rowCells (r : PoseRow) : List CsvValue :=
  [CsvValue.nat r.timestamp, CsvValue.rat r.tx, CsvValue.rat r.ty, CsvValue.rat r.tz,
   CsvValue.rat r.qx, CsvValue.rat r.qy, CsvValue.rat r.qz, CsvValue.rat r.qw]

/-- The written CSV file: its header line and its data lines, cell by cell. -/
structure Csv where
  header : List String
  rows : List (List CsvValue)
deriving DecidableEq, Repr

/-- The data lines written by pandas `to_csv` with the default `index=True`:
each row is prefixed with its integer index. -/
def csvRows : Nat → List PoseRow → List (List CsvValue)
  | _, [] => []
  | i, r :: rest => (CsvValue.nat i :: rowCells r) :: csvRows (i + 1) rest

/-- Embeds `df.to_csv(opt.output_pose_file)` (position_post.py line 177):
pandas is called without `index=False`, so the header gains a leading
unnamed index column and every data row is prefixed with its index. -/
def to_csv (df : List PoseRow) : Csv :=
  ⟨"" :: df_columns, csvRows 0 df⟩

/-- Embeds `main()` of position_post.py restricted to its observable output:
`nb_frames = zed.get_svo_number_of_frames()`, the grab/track loop, and the
final `df.to_csv(...)` call. -/
def position_post_main (grabs : List GrabOutcome) (nb_frames : Nat) : Csv :=
  to_csv (track_loop grabs nb_frames)

/-- The poses of the successfully grabbed frames of a grab script, in
order. -/
def successes (grabs : List GrabOutcome) : List Pose :=
  grabs.filterMap (fun g =>
    match g with
    | GrabOutcome.success p => some p
    | GrabOutcome.failure => none)

/-- The tracking loop produces exactly one row, via `mkRow`, per successful
grab, up to `nb_frames` of them. -/
lemma track_loop_eq : ∀ (grabs : List GrabOutcome) (n : Nat),
    track_loop grabs n = ((successes grabs).take n).map mkRow
  | _, 0 => by simp [track_loop]
  | [], _ + 1 => by simp [track_loop, successes]
  | GrabOutcome.success p :: rest, n + 1 => by
      simp [track_loop, successes, track_loop_eq rest n]
  | GrabOutcome.failure :: rest, n + 1 => by
      simp [track_loop, successes, track_loop_eq rest (n + 1)]

lemma csvRows_length : ∀ (l : List PoseRow) (i : Nat), (csvRows i l).length = l.length
  | [], _ => rfl
  | _ :: rest, i => by simp [csvRows, csvRows_length rest (i + 1)]

lemma csvRows_get : ∀ (l : List PoseRow) (i k : Nat),
    (csvRows i l)[k]? = (l[k]?).map (fun r => CsvValue.nat (i + k) :: rowCells r)
  | [], i, k => by simp [csvRows]
  | r :: rest, i, 0 => by simp [csvRows]
  | r :: rest, i, k + 1 => by
      have h : i + 1 + k = i + (k + 1) := by omega
      simp only [csvRows, List.getElem?_cons_succ, csvRows_get rest (i + 1) k, h]

/-- C9 as amended: the pose CSV's header is a leading unnamed index column
followed by exactly `Timestamp,Tx,Ty,Tz,Qx,Qy,Qz,Qw`; it contains one row
per successfully grabbed frame (up to the SVO's reported frame count), each
row holding its index, the frame's raw millisecond timestamp, and the
translation and quaternion values rounded to 3 decimals. -/
theorem pose_csv_shape (grabs : List GrabOutcome) (nb_frames : Nat) :
    (position_post_main grabs nb_frames).header = "" :: df_columns ∧
    (position_post_main grabs nb_frames).rows.length
      = min nb_frames (successes grabs).length ∧
    ∀ k p, ((successes grabs).take nb_frames)[k]? = some p →
      (position_post_main grabs nb_frames).rows[k]? = some
        [CsvValue.nat k, CsvValue.nat p.timestampMs,
         CsvValue.rat (round3 p.tx), CsvValue.rat (round3 p.ty), CsvValue.rat (round3 p.tz),
         CsvValue.rat (round3 p.qx), CsvValue.rat (round3 p.qy), CsvValue.rat (round3 p.qz),
         CsvValue.rat (round3 p.qw)] := by
  refine ⟨rfl, ?_, ?_⟩
  · simp [position_post_main, to_csv, track_loop_eq, csvRows_length, List.length_take]
  · intro k p hk
    show (csvRows 0 (track_loop grabs nb_frames))[k]? = _
    rw [track_loop_eq, csvRows_get, List.getElem?_map, hk]
    simp [mkRow, rowCells]

def poseW : Pose := ⟨50, 1/2, 0, 0, 0, 0, 0, 1⟩

/-- Witness for the amended C9 at a one-frame SVO with one successful grab. -/
theorem pose_csv_shape_witness :
    (position_post_main [GrabOutcome.success poseW] 1).rows[0]? = some
      [CsvValue.nat 0, CsvValue.nat poseW.timestampMs,
       CsvValue.rat (round3 poseW.tx), CsvValue.rat (round3 poseW.ty),
       CsvValue.rat (round3 poseW.tz), CsvValue.rat (round3 poseW.qx),
       CsvValue.rat (round3 poseW.qy), CsvValue.rat (round3 poseW.qz),
       CsvValue.rat (round3 poseW.qw)] :=
  (pose_csv_shape [GrabOutcome.success poseW] 1).2.2 0 poseW (by rfl)

def poseX : Pose := ⟨100, 1, 0, 0, 0, 0, 0, 1⟩

/-- Counterexample to C9 as stated: for a concrete one-frame SVO the written
CSV's column line is not exactly `Timestamp,Tx,Ty,Tz,Qx,Qy,Qz,Qw` — pandas
`to_csv` is called with its default `index=True`, so a leading unnamed index
column is prepended. -/
theorem pose_csv_header_counterexample :
    (position_post_main [GrabOutcome.success poseX] 1).header = "" :: df_columns ∧
    (position_post_main [GrabOutcome.success poseX] 1).header ≠ df_columns := by
  exact ⟨rfl, by decide⟩

end PositionPost

end UwOpenhsi
